import Mathlib

/-!
Verification development for the texttools offline batch-job lifecycle.

The definitions below are a shallow embedding of the Python sources:
  - `src/texttools/base/offline_batch_processor.py`  (class `OfflineBatchProcessor`, here `OBP`)
  - `src/texttools/batch_manager/batch_manager.py`   (class `SimpleBatchManager`, here `SM`)
  - `src/texttools/categorizer/offline_llm/offline_categorizer.py` (`OfflineCategorizer._parse_entry`)

Python dicts are association lists, exceptions are `Except` errors, the remote
OpenAI client is a read-only environment (a map from batch ids to batch
metadata and from file ids to file contents), and every remote or filesystem
side effect is recorded in an event trace.
-/

/-- Association-list lookup, modelling Python dict access. -/
def dlookup {K V : Type} [DecidableEq K] : List (K × V) → K → Option V
  | [], _ => none
  | kv :: rest, k => if k = kv.1 then some kv.2 else dlookup rest k

/-- Association-list insert-or-update, modelling Python dict assignment:
the value is replaced in place when the key is present, appended otherwise. -/
def dinsert {K V : Type} [DecidableEq K] : List (K × V) → K → V → List (K × V)
  | [], k, v => [(k, v)]
  | kv :: rest, k, v => if k = kv.1 then (k, v) :: rest else kv :: dinsert rest k v

/-- Association-list removal, modelling deletion of a state file. -/
def derase {K V : Type} [DecidableEq K] : List (K × V) → K → List (K × V)
  | [], _ => []
  | kv :: rest, k => if k = kv.1 then derase rest k else kv :: derase rest k

/-- Keys of an association list, in order. -/
def dkeys {K V : Type} (l : List (K × V)) : List K := l.map Prod.fst

/-- Python `x or default` on an optional string (`None` and `""` are falsy). -/
def pyOr (o : Option String) (d : String) : String :=
  match o with
  | some s => if s = "" then d else s
  | none => d

/-- Exceptions raised by the embedded code. -/
inductive PyErr : Type
  /-- IndexError, e.g. `[][0]`. -/
  | indexError
  /-- TypeError with message. -/
  | typeError (msg : String)
  /-- ValueError with message. -/
  | valueError (msg : String)
  /-- RuntimeError with message. -/
  | runtimeError (msg : String)
  /-- json.JSONDecodeError from `json.loads` on a malformed line. -/
  | jsonDecodeError
  /-- NameError: a local variable referenced before assignment. -/
  | nameError (v : String)
  /-- Error from the remote client for an unknown batch or file id. -/
  | notFound (ident : String)
  /-- An exception raised by a result handler, propagating out of a fetch. -/
  | handlerError (msg : String)
deriving DecidableEq, Repr

/-- Observable side effects of a lifecycle call, in execution order. -/
inductive Event : Type
  /-- client.files.create: the task file upload. -/
  | uploadFile
  /-- client.batches.create: the remote job submission. -/
  | createBatch
  /-- client.batches.retrieve on a batch id. -/
  | retrieve (batchId : String)
  /-- client.files.content on an artifact id. -/
  | download (fileId : String)
  /-- writing the state file for a job name. -/
  | saveState (jobName : String)
  /-- deleting the state file for a job name. -/
  | clearState (jobName : String)
  /-- invoking handler number `i` on the results. -/
  | handle (i : Nat)
deriving DecidableEq, Repr

/-- Remote batch metadata as returned by `client.batches.retrieve`.
The plural `output_file_ids` field models the alternative vendor field probed
by the base processor via `getattr`. -/
structure BatchInfo : Type where
  id : String
  status : String
  output_file_id : Option String := none
  error_file_id : Option String := none
  output_file_ids : List String := []
  errors : Option String := none
deriving DecidableEq, Repr

/-- The state directory: one entry per job name, each holding the JSON list of
job records that `_save_state` wrote. An absent key is an absent file. -/
def loadState {J : Type} (store : List (String × List J)) (job_name : String) : List J :=
  (dlookup store job_name).getD []

/-- Overwrite the state file for a job name (`_save_state`). -/
def saveState {J : Type} (store : List (String × List J)) (job_name : String) (jobs : List J) :
    List (String × List J) :=
  dinsert store job_name jobs

/-- Delete the state file for a job name (`_clear_state`). -/
def clearState {J : Type} (store : List (String × List J)) (job_name : String) :
    List (String × List J) :=
  derase store job_name

/-- Result of one lifecycle call: the state directory afterwards, the emitted
event trace, and the returned value or the propagated exception. -/
structure FetchOut (R : Type) (J : Type) : Type where
  store : List (String × List J)
  events : List Event
  ret : Except PyErr R

/-- Handler dispatch loop from index `i`: `for handler in self.handlers:
handler.handle(results)`. There is no try/except around the call, so the
first handler that raises stops the loop and its exception escapes. -/
def dispatchFrom {R : Type} (results : R) : Nat → List (R → Except String Unit) → List Event × Except String Unit
  | _, [] => ([], Except.ok ())
  | i, h :: rest =>
    match h results with
    | Except.error msg => ([Event.handle i], Except.error msg)
    | Except.ok _ =>
      let p := dispatchFrom results (i + 1) rest
      (Event.handle i :: p.1, p.2)

/-- Handler dispatch (`OfflineBatchProcessor._dispatch` and the inline loop at
the end of `SimpleBatchManager.fetch_results`). -/
def dispatch {R : Type} (handlers : List (R → Except String Unit)) (results : R) :
    List Event × Except String Unit :=
  dispatchFrom results 0 handlers

/-! ## SimpleBatchManager (`src/texttools/batch_manager/batch_manager.py`) -/

/-- Persisted job record for `SimpleBatchManager`: the batch dict from
`client.batches.create(...).to_dict()` / `client.batches.retrieve(...).to_dict()`,
restricted to the fields the manager reads. -/
structure SMJob : Type where
  id : String
  status : String
deriving DecidableEq, Repr

/-- Outcome of `json.loads(content)` followed by `self.output_model(**parsed_content)`
on the inner message content of one result line. `M` is the pydantic output model. -/
inductive ModelParse (M : Type) : Type
  /-- json.JSONDecodeError while parsing the content string. -/
  | jsonError
  /-- Any other exception (for example pydantic validation), with `str(e)`. -/
  | exn (msg : String)
  /-- A successfully constructed model instance. -/
  | ok (m : M)

/-- One result line of the output artifact after `json.loads(line)`:
the fields `SimpleBatchManager.fetch_results` reads from it. -/
structure SMEnvelope : Type where
  custom_id : String
  status_code : Int
  content : String
  error_message : Option String := none
deriving DecidableEq, Repr

/-- One physical line of the output artifact: either malformed JSON
(`json.loads(line)` raises) or a well-formed envelope. -/
inductive SMLine : Type
  /-- A line that is not valid JSON. -/
  | bad
  /-- A well-formed result line. -/
  | good (e : SMEnvelope)
deriving DecidableEq, Repr

/-- A downloadable artifact: the per-line view used for the output file and the
raw text used for the error file. -/
structure SMFile : Type where
  lines : List SMLine := []
  raw : String := ""
deriving DecidableEq, Repr

/-- The remote service as `SimpleBatchManager` sees it. -/
structure SMRemote : Type where
  batches : List (String × BatchInfo)
  files : List (String × SMFile)

/-- A value stored in the results dict: a model instance or the
per-entry error dict. -/
inductive SMValue (M : Type) : Type
  /-- A parsed `output_model` instance. -/
  | model (m : M)
  /-- The per-entry error dict, carrying the message string. -/
  | error (msg : String)
deriving DecidableEq, Repr

/-- Configuration of a `SimpleBatchManager` instance: the content parser
(`json.loads` plus `output_model(**...)`) and the registered handlers. -/
structure SMCfg (M : Type) : Type where
  parseModel : String → ModelParse M
  handlers : List (List (String × SMValue M) → Except String Unit)

/-- The value recorded for one well-formed result line by the loop body of
`SimpleBatchManager.fetch_results`. -/
def SM.lineValue {M : Type} (cfg : SMCfg M) (e : SMEnvelope) : SMValue M :=
  if e.status_code = 200 then
    match cfg.parseModel e.content with
    | ModelParse.ok m => SMValue.model m
    | ModelParse.jsonError => SMValue.error ("Failed to parse content as JSON")
    | ModelParse.exn s => SMValue.error s
  else
    SMValue.error (e.error_message.getD ("Unknown error"))

/-- The result-building loop of `SimpleBatchManager.fetch_results`:
`json.loads(line)` on a malformed line raises and aborts the whole loop;
a well-formed line always records a value under its custom_id. -/
def SM.processLines {M : Type} (cfg : SMCfg M) :
    List (String × SMValue M) → List SMLine → Except PyErr (List (String × SMValue M))
  | _, SMLine.bad :: _ => Except.error PyErr.jsonDecodeError
  | acc, SMLine.good e :: rest =>
    SM.processLines cfg (dinsert acc e.custom_id (SM.lineValue cfg e)) rest
  | acc, [] => Except.ok acc

/-- Payload accepted by `SimpleBatchManager.start` / `_prepare_file`:
a list of texts, a dict mapping ids to texts, or anything else. -/
inductive SMPayload : Type
  /-- A list of texts; ids are generated by `uuid.uuid4().hex`. -/
  | listP (texts : List String)
  /-- A dict keyed by caller-supplied string ids. -/
  | dictP (items : List (String × String))
  /-- Any other payload type: `_prepare_file` raises TypeError. -/
  | otherP
deriving DecidableEq, Repr

/-- Number of input items in a payload. -/
def SM.payloadSize : SMPayload → Nat
  | SMPayload.listP texts => texts.length
  | SMPayload.dictP items => items.length
  | SMPayload.otherP => 0

/-- The custom_ids assigned by `SimpleBatchManager._prepare_file`: one fresh
`uuid.uuid4().hex` per text for a list payload (the supply `uuidHex` models the
uuid generator), the caller-supplied keys for a dict payload, and TypeError
otherwise. `_build_task` then sets `custom_id = str(idx)`, which on these
string ids is the identity. -/
def SM.customIds (uuidHex : Nat → String) : SMPayload → Except PyErr (List String)
  | SMPayload.listP texts => Except.ok ((List.range texts.length).map uuidHex)
  | SMPayload.dictP items => Except.ok (items.map Prod.fst)
  | SMPayload.otherP =>
    Except.error (PyErr.typeError ("The input must be either a list of texts or a dictionary."))

/-- Embedding of `SimpleBatchManager.start`: if a state record already exists
the call returns at once; otherwise it prepares the task file (which can raise
TypeError), uploads it, creates the batch, and persists the batch dict
(`newJob` is the record the remote returns for this submission). -/
def SM.start (uuidHex : Nat → String) (newJob : SMJob) (payload : SMPayload)
    (store : List (String × List SMJob)) (job_name : String) : FetchOut Unit SMJob :=
  if loadState store job_name ≠ [] then
    { store := store, events := [], ret := Except.ok () }
  else
    match SM.customIds uuidHex payload with
    | Except.error e => { store := store, events := [], ret := Except.error e }
    | Except.ok _ =>
      { store := saveState store job_name [newJob],
        events := [Event.uploadFile, Event.createBatch, Event.saveState job_name],
        ret := Except.ok () }

/-- Embedding of `SimpleBatchManager.check_status`. The source first runs
`job = self._load_state(job_name)[0]`, which raises IndexError when no state
record exists; the `if not job` guard after it can never fire because a batch
dict from `to_dict()` is never empty. On success the refreshed batch dict is
persisted and its native status string is returned verbatim. -/
def SM.check_status (remote : SMRemote) (store : List (String × List SMJob)) (job_name : String) :
    Except PyErr (List (String × List SMJob) × String) :=
  match loadState store job_name with
  | [] => Except.error PyErr.indexError
  | job :: _ =>
    match dlookup remote.batches job.id with
    | none => Except.error (PyErr.notFound job.id)
    | some info =>
      Except.ok (saveState store job_name [{ id := info.id, status := info.status }], info.status)

/-- Embedding of `SimpleBatchManager.fetch_results`. As in `check_status`,
`self._load_state(job_name)[0]` raises IndexError on an absent record. With an
output artifact present the line loop builds the results dict, the handlers run
without any exception isolation, the state file is deleted, and the dict is
returned. Without an output artifact the error artifact, if any, is downloaded
and printed and `{}` is returned. -/
def SM.fetch_results {M : Type} (remote : SMRemote) (cfg : SMCfg M)
    (store : List (String × List SMJob)) (job_name : String) :
    FetchOut (List (String × SMValue M)) SMJob :=
  match loadState store job_name with
  | [] => { store := store, events := [], ret := Except.error PyErr.indexError }
  | job :: _ =>
    match dlookup remote.batches job.id with
    | none =>
      { store := store, events := [Event.retrieve job.id], ret := Except.error (PyErr.notFound job.id) }
    | some info =>
      match info.output_file_id with
      | none =>
        match info.error_file_id with
        | none =>
          { store := store, events := [Event.retrieve job.id], ret := Except.ok [] }
        | some ef =>
          match dlookup remote.files ef with
          | none =>
            { store := store, events := [Event.retrieve job.id, Event.download ef],
              ret := Except.error (PyErr.notFound ef) }
          | some _ =>
            { store := store, events := [Event.retrieve job.id, Event.download ef],
              ret := Except.ok [] }
      | some f =>
        match dlookup remote.files f with
        | none =>
          { store := store, events := [Event.retrieve job.id, Event.download f],
            ret := Except.error (PyErr.notFound f) }
        | some file =>
          match SM.processLines cfg [] file.lines with
          | Except.error e =>
            { store := store, events := [Event.retrieve job.id, Event.download f],
              ret := Except.error e }
          | Except.ok results =>
            match dispatch cfg.handlers results with
            | (hevs, Except.error msg) =>
              { store := store, events := [Event.retrieve job.id, Event.download f] ++ hevs,
                ret := Except.error (PyErr.handlerError msg) }
            | (hevs, Except.ok _) =>
              { store := clearState store job_name,
                events := [Event.retrieve job.id, Event.download f] ++ hevs ++ [Event.clearState job_name],
                ret := Except.ok results }

/-- Python objects relevant to the `custom_json_schema_obj_str` constructor
argument, with constructor equality playing the role of object identity:
`dictClass` is the unique class object `dict`, and no dict instance, `None`,
or other object is identical to it. -/
inductive PyObject : Type
  /-- The value `None` (the declared default of the argument). -/
  | noneObj
  /-- An actual dict instance with the given entries. -/
  | dictInstance (entries : List (String × String))
  /-- The built-in class object `dict` itself. -/
  | dictClass
  /-- Any other Python object. -/
  | otherObj (tag : String)
deriving DecidableEq, Repr

/-- The final check of `SimpleBatchManager.__init__`:
`if self.custom_json_schema_obj_str is not dict: raise ValueError("schema should be a dict")`.
The comparison is object identity against the class object `dict`. -/
def SM.initSchemaCheck (custom_json_schema_obj_str : PyObject) : Except PyErr Unit :=
  if custom_json_schema_obj_str = PyObject.dictClass then Except.ok ()
  else Except.error (PyErr.valueError ("schema should be a dict"))

/-! ## OfflineBatchProcessor (`src/texttools/base/offline_batch_processor.py`)
with the entry parser of `OfflineCategorizer`
(`src/texttools/categorizer/offline_llm/offline_categorizer.py`). -/

/-- Persisted job record for the base processor: the batch metadata dict with
the two artifact-id keys that `fetch_results` reads and writes. -/
structure OBPJob : Type where
  id : String
  output_file_id : Option String := none
  error_file_id : Option String := none
deriving DecidableEq, Repr

/-- The fields `OfflineCategorizer._parse_entry` reads from one output line:
`entry["custom_id"]` and `entry["response"]["choices"][0]["message"]["content"]`. -/
structure CatEntry : Type where
  custom_id : String
  content : String
deriving DecidableEq, Repr

/-- One physical line of the output artifact for the base processor:
`json.loads(line)` either raises or yields a well-formed entry. -/
inductive CatLine : Type
  /-- A line that is not valid JSON. -/
  | bad
  /-- A well-formed entry. -/
  | good (e : CatEntry)
deriving DecidableEq, Repr

/-- A downloadable artifact for the base processor. -/
structure OBPFile : Type where
  lines : List CatLine := []
  raw : String := ""
deriving DecidableEq, Repr

/-- The remote service as the base processor sees it. -/
structure OBPRemote : Type where
  batches : List (String × BatchInfo)
  files : List (String × OBPFile)

/-- Python `str.lower()`, character by character. -/
def pyLower (s : String) : String := String.mk (s.data.map Char.toLower)

/-- Python `str.strip()`: whitespace removed from both ends. -/
def pyStrip (s : String) : String :=
  String.mk (((s.data.dropWhile Char.isWhitespace).reverse.dropWhile Char.isWhitespace).reverse)

/-- Embedding of `OfflineCategorizer._parse_entry` over the category names:
the first category whose lowercased name equals the stripped lowercased content
wins; otherwise ValueError is raised. -/
def parse_entry (categories : List String) (e : CatEntry) : Except PyErr (String × String) :=
  match categories.find? (fun c => pyLower c = pyLower (pyStrip e.content)) with
  | some c => Except.ok (e.custom_id, c)
  | none => Except.error (PyErr.valueError ("Unknown category returned: " ++ e.content))

/-- The output-artifact loop of `OfflineBatchProcessor.fetch_results` (step 2):
`entry = json.loads(line); cid, parsed = self._parse_entry(entry);
all_results[cid] = parsed` — with no exception handling, so a malformed line
or an unparsable entry aborts the whole fetch. -/
def OBP.parseLines (cats : List String) :
    List (String × String) → List CatLine → Except PyErr (List (String × String))
  | _, CatLine.bad :: _ => Except.error PyErr.jsonDecodeError
  | acc, CatLine.good e :: rest =>
    match parse_entry cats e with
    | Except.error pe => Except.error pe
    | Except.ok cp => OBP.parseLines cats (dinsert acc cp.1 cp.2) rest
  | acc, [] => Except.ok acc

/-- Loop state of `OfflineBatchProcessor.fetch_results`: the accumulated
results dict, the `updated` flag, the `err_txt` local (which stays unbound —
`none` — until an error artifact is downloaded), the event trace so far, and
the already-processed (possibly mutated) job records. -/
structure OBPLoop : Type where
  results : List (String × String)
  updated : Bool
  errTxt : Option String
  events : List Event
  done : List OBPJob
deriving Repr

/-- Step 3 of the per-job body: download the error artifact when an error
file id is at hand, binding `err_txt`, then finish this job. -/
def OBP.downloadErr (remote : OBPRemote) (st : OBPLoop) (job2 : OBPJob)
    (evs : List Event) (res : List (String × String)) (errF : Option String) (upd : Bool) :
    Except (List Event × PyErr) OBPLoop :=
  match errF with
  | none =>
    Except.ok { results := res, updated := upd, errTxt := st.errTxt, events := evs,
                done := st.done ++ [job2] }
  | some ef =>
    match dlookup remote.files ef with
    | none => Except.error (evs ++ [Event.download ef], PyErr.notFound ef)
    | some file =>
      Except.ok { results := res, updated := upd, errTxt := some file.raw,
                  events := evs ++ [Event.download ef], done := st.done ++ [job2] }

/-- Steps 2 and 3 of the per-job body: download and parse the output artifact
when an output file id is at hand, then handle the error artifact. -/
def OBP.download (remote : OBPRemote) (cats : List String) (st : OBPLoop) (job2 : OBPJob)
    (evs : List Event) (outF errF : Option String) (upd : Bool) :
    Except (List Event × PyErr) OBPLoop :=
  match outF with
  | none => OBP.downloadErr remote st job2 evs st.results errF upd
  | some f =>
    match dlookup remote.files f with
    | none => Except.error (evs ++ [Event.download f], PyErr.notFound f)
    | some file =>
      match OBP.parseLines cats st.results file.lines with
      | Except.error e => Except.error (evs ++ [Event.download f], e)
      | Except.ok res => OBP.downloadErr remote st job2 (evs ++ [Event.download f]) res errF upd

/-- The body of `for job in jobs:` in `OfflineBatchProcessor.fetch_results`.
When neither artifact id is cached the batch is retrieved once: a failed or
cancelled batch without an error file id raises RuntimeError with the remote
failure message; with an error file id it falls through to the downloads; a
batch that is neither terminal-failed nor completed hits `continue`; a
completed batch discovers its output file id (with the plural-field fallback).
Newly discovered ids are written into the in-memory job dict and `updated` is
set; the downloads then run. With a cached id the retrieval is skipped. -/
def OBP.step (remote : OBPRemote) (cats : List String) (st : OBPLoop) (job : OBPJob) :
    Except (List Event × PyErr) OBPLoop :=
  if job.output_file_id = none ∧ job.error_file_id = none then
    match dlookup remote.batches job.id with
    | none => Except.error (st.events ++ [Event.retrieve job.id], PyErr.notFound job.id)
    | some info =>
      if info.status = "failed" ∨ info.status = "cancelled" then
        match info.error_file_id with
        | none =>
          Except.error (st.events ++ [Event.retrieve job.id],
            PyErr.runtimeError
              ("Batch " ++ job.id ++ " failed: " ++ pyOr info.errors ("Unknown batch failure")))
        | some ef =>
          OBP.download remote cats st
            { job with output_file_id := none, error_file_id := some ef }
            (st.events ++ [Event.retrieve job.id]) none (some ef) true
      else if ¬ (info.status = "completed") then
        Except.ok { st with events := st.events ++ [Event.retrieve job.id], done := st.done ++ [job] }
      else
        let out1 : Option String :=
          match info.output_file_id with
          | some o => some o
          | none => info.output_file_ids.head?
        OBP.download remote cats st
          { job with output_file_id := out1, error_file_id := none }
          (st.events ++ [Event.retrieve job.id]) out1 none true
  else
    OBP.download remote cats st job st.events job.output_file_id job.error_file_id st.updated

/-- The full job loop, threading the loop state and stopping at the first
propagated exception (which carries the events emitted up to that point). -/
def OBP.runJobs (remote : OBPRemote) (cats : List String) :
    List OBPJob → OBPLoop → Except (List Event × PyErr) OBPLoop
  | [], st => Except.ok st
  | job :: rest, st =>
    match OBP.step remote cats st job with
    | Except.error e => Except.error e
    | Except.ok st2 => OBP.runJobs remote cats rest st2

/-- Return value of `OfflineBatchProcessor.fetch_results`: the bare `{}`
returned when no jobs are found, or the final
`{"results": all_results, "errors": err_txt}` dict. -/
inductive OBPRet : Type
  /-- The early `return {}` when no state record exists. -/
  | empty
  /-- The final results/errors dict. -/
  | full (results : List (String × String)) (errors : String)
deriving DecidableEq, Repr

/-- Embedding of `OfflineBatchProcessor.fetch_results`. After the job loop the
mutated job list is saved back when any id was discovered; when the results
dict is non-empty the handlers run (their exceptions propagate) and the state
file is deleted; finally `{"results": all_results, "errors": err_txt}` is
built, which raises NameError when `err_txt` was never assigned (no error
artifact was downloaded). -/
def OBP.fetch_results (remote : OBPRemote) (cats : List String)
    (handlers : List (List (String × String) → Except String Unit))
    (store : List (String × List OBPJob)) (job_name : String) : FetchOut OBPRet OBPJob :=
  match loadState store job_name with
  | [] => { store := store, events := [], ret := Except.ok OBPRet.empty }
  | j :: js =>
    match OBP.runJobs remote cats (j :: js)
        { results := [], updated := false, errTxt := none, events := [], done := [] } with
    | Except.error ep => { store := store, events := ep.1, ret := Except.error ep.2 }
    | Except.ok st =>
      let store1 := if st.updated then saveState store job_name st.done else store
      let evs1 := st.events ++ (if st.updated then [Event.saveState job_name] else [])
      if st.results ≠ [] then
        match dispatch handlers st.results with
        | (hevs, Except.error msg) =>
          { store := store1, events := evs1 ++ hevs, ret := Except.error (PyErr.handlerError msg) }
        | (hevs, Except.ok _) =>
          let store2 := clearState store1 job_name
          let evs2 := evs1 ++ hevs ++ [Event.clearState job_name]
          match st.errTxt with
          | none => { store := store2, events := evs2, ret := Except.error (PyErr.nameError ("err_txt")) }
          | some t => { store := store2, events := evs2, ret := Except.ok (OBPRet.full st.results t) }
      else
        match st.errTxt with
        | none => { store := store1, events := evs1, ret := Except.error (PyErr.nameError ("err_txt")) }
        | some t => { store := store1, events := evs1, ret := Except.ok (OBPRet.full st.results t) }

/-- Embedding of the per-job loop of `OfflineBatchProcessor.check_status`:
the first failed or cancelled batch is returned as-is, the first batch whose
native status is anything else but completed yields in_progress, and a loop
that runs to the end yields completed. -/
def OBP.checkLoop (remote : OBPRemote) : List OBPJob → Except PyErr String
  | [] => Except.ok ("completed")
  | job :: rest =>
    match dlookup remote.batches job.id with
    | none => Except.error (PyErr.notFound job.id)
    | some info =>
      if info.status = "failed" ∨ info.status = "cancelled" then Except.ok info.status
      else if ¬ (info.status = "completed") then Except.ok ("in_progress")
      else OBP.checkLoop remote rest

/-- Embedding of `OfflineBatchProcessor.check_status`: an absent state record
returns completed at once, otherwise the job loop decides. -/
def OBP.check_status (remote : OBPRemote) (store : List (String × List OBPJob))
    (job_name : String) : Except PyErr String :=
  match loadState store job_name with
  | [] => Except.ok ("completed")
  | j :: js => OBP.checkLoop remote (j :: js)

/-- Embedding of `OfflineBatchProcessor.start`: with a non-empty state record
the call prints and returns at once; otherwise the upload file is prepared,
the batch submitted, and the returned metadata saved as the one-element list. -/
def OBP.start (newJob : OBPJob) (store : List (String × List OBPJob)) (job_name : String) :
    FetchOut Unit OBPJob :=
  if loadState store job_name ≠ [] then
    { store := store, events := [], ret := Except.ok () }
  else
    { store := saveState store job_name [newJob],
      events := [Event.uploadFile, Event.createBatch, Event.saveState job_name],
      ret := Except.ok () }

/-- The temporal property asserted by the spec for artifact ids: every
download event is preceded by some state save in the same call (the flag
tracks whether a save has been seen). -/
def persistedBeforeDownload : List Event → Bool → Bool
  | [], _ => true
  | Event.download _ :: rest, seen => seen && persistedBeforeDownload rest seen
  | Event.saveState _ :: rest, _ => persistedBeforeDownload rest true
  | _ :: rest, seen => persistedBeforeDownload rest seen

/-! ## Concrete worlds used to evaluate the embedded code -/

/-- A `SimpleBatchManager` configuration whose output model accepts every
content string (the model instance is the string itself) and with no handlers. -/
def smCfgId : SMCfg String :=
  { parseModel := fun s => ModelParse.ok s, handlers := [] }

/-- The same configuration with two handlers, the first of which raises. -/
def smCfgRaise : SMCfg String :=
  { parseModel := fun s => ModelParse.ok s,
    handlers := [fun _ => Except.error ("boom"), fun _ => Except.ok ()] }

/-- A persisted `SimpleBatchManager` record for batch b1. -/
def smJob1 : SMJob := { id := "b1", status := "completed" }

/-- Remote metadata: batch b1 completed with output artifact f1. -/
def smInfoDone : BatchInfo := { id := "b1", status := "completed", output_file_id := some ("f1") }

/-- Remote metadata: batch b1 with the native status string validating. -/
def smInfoValidating : BatchInfo := { id := "b1", status := "validating" }

/-- A one-line well-formed output envelope with custom_id a. -/
def smEnvA : SMEnvelope := { custom_id := "a", status_code := 200, content := "x" }

/-- An output artifact holding exactly one well-formed entry. -/
def smFileOne : SMFile := { lines := [SMLine.good smEnvA] }

/-- An output artifact holding one well-formed entry and one malformed line. -/
def smFileMixed : SMFile := { lines := [SMLine.good smEnvA, SMLine.bad] }

/-- Remote world: b1 completed, output artifact f1 with one entry. -/
def smRemoteDone : SMRemote := { batches := [("b1", smInfoDone)], files := [("f1", smFileOne)] }

/-- Remote world: b1 completed, output artifact f1 with one well-formed and one
malformed line. -/
def smRemoteMixed : SMRemote := { batches := [("b1", smInfoDone)], files := [("f1", smFileMixed)] }

/-- Remote world: b1 still validating. -/
def smRemoteValidating : SMRemote := { batches := [("b1", smInfoValidating)], files := [] }

/-- A state directory holding the record for job name jn. -/
def smStore1 : List (String × List SMJob) := [("jn", [smJob1])]

/-- A persisted base-processor record for batch b1 with no cached artifact ids. -/
def obpJobB1 : OBPJob := { id := "b1" }

/-- A base-processor state directory holding the record for job name jn. -/
def obpStore1 : List (String × List OBPJob) := [("jn", [obpJobB1])]

/-- Remote metadata: b1 failed, exposing an error artifact e1 and a failure
message. -/
def obpInfoFailedErr : BatchInfo :=
  { id := "b1", status := "failed", error_file_id := some ("e1"), errors := some ("overloaded") }

/-- Remote metadata: b1 failed with a failure message but no error artifact. -/
def obpInfoFailedNoErr : BatchInfo := { id := "b1", status := "failed", errors := some ("overloaded") }

/-- Remote metadata: b1 completed with output artifact f1. -/
def obpInfoDone : BatchInfo := { id := "b1", status := "completed", output_file_id := some ("f1") }

/-- The raw text of the error artifact. -/
def obpFileErr : OBPFile := { raw := "boom" }

/-- An output artifact with one entry whose content names the category fruit. -/
def obpFileOut : OBPFile := { lines := [CatLine.good { custom_id := "a", content := "fruit" }] }

/-- Remote world for the failed batch with an error artifact. -/
def obpRemoteFailedErr : OBPRemote :=
  { batches := [("b1", obpInfoFailedErr)], files := [("e1", obpFileErr)] }

/-- Remote world for the failed batch without an error artifact. -/
def obpRemoteFailedNoErr : OBPRemote := { batches := [("b1", obpInfoFailedNoErr)], files := [] }

/-- Remote world for the completed batch with output artifact f1. -/
def obpRemoteDone : OBPRemote := { batches := [("b1", obpInfoDone)], files := [("f1", obpFileOut)] }

/-- Remote world: b1 still validating. -/
def obpRemoteValidating : OBPRemote :=
  { batches := [("b1", { id := "b1", status := "validating" })], files := [] }

/-- An empty remote world. -/
def obpRemoteEmpty : OBPRemote := { batches := [], files := [] }

/-- A configuration whose output model accepts exactly the content x and fails
to JSON-parse anything else, with no handlers. -/
def smCfgPicky : SMCfg String :=
  { parseModel := fun s => if s = "x" then ModelParse.ok s else ModelParse.jsonError,
    handlers := [] }

/-- A second well-formed envelope whose content the picky model rejects. -/
def smEnvB : SMEnvelope := { custom_id := "b", status_code := 200, content := "zz" }

/-- An output artifact with two well-formed entries. -/
def smFileTwo : SMFile := { lines := [SMLine.good smEnvA, SMLine.good smEnvB] }

/-- Remote world: b1 completed, output artifact f1 with the two entries. -/
def smRemoteTwo : SMRemote := { batches := [("b1", smInfoDone)], files := [("f1", smFileTwo)] }

/-! ## Dictionary lemmas -/

theorem dlookup_dinsert_self {K V : Type} [DecidableEq K] (l : List (K × V)) (k : K) (v : V) :
    dlookup (dinsert l k v) k = some v := by
  induction l with
  | nil => simp [dinsert, dlookup]
  | cons kv rest ih =>
    by_cases h : k = kv.1
    · simp [dinsert, h, dlookup]
    · simp [dinsert, h, dlookup, ih]

theorem loadState_saveState_self {J : Type} (store : List (String × List J)) (n : String)
    (js : List J) : loadState (saveState store n js) n = js := by
  simp [loadState, saveState, dlookup_dinsert_self]

theorem dinsert_of_not_mem {K V : Type} [DecidableEq K] (l : List (K × V)) (k : K) (v : V)
    (h : k ∉ dkeys l) : dinsert l k v = l ++ [(k, v)] := by
  induction l with
  | nil => simp [dinsert]
  | cons kv rest ih =>
    simp only [dkeys, List.map_cons, List.mem_cons] at h
    push_neg at h
    have h2 : k ∉ dkeys rest := by simpa [dkeys] using h.2
    simp [dinsert, h.1, ih h2]

theorem dinsert_ne_nil {K V : Type} [DecidableEq K] (l : List (K × V)) (k : K) (v : V) :
    dinsert l k v ≠ [] := by
  cases l with
  | nil => simp [dinsert]
  | cons kv rest => by_cases h : k = kv.1 <;> simp [dinsert, h]

theorem dlookup_map_self {K V A : Type} [DecidableEq K] (f : A → K) (g : A → V)
    (l : List A) (a : A) (hnd : (l.map f).Nodup) (ha : a ∈ l) :
    dlookup (l.map fun x => (f x, g x)) (f a) = some (g a) := by
  induction l with
  | nil => cases ha
  | cons x rest ih =>
    rcases List.mem_cons.mp ha with rfl | ha2
    · simp [dlookup]
    · have hnx : f x ∉ rest.map f := (List.nodup_cons.mp (by simpa using hnd)).1
      have hne : f a ≠ f x := by
        intro he
        exact hnx (he ▸ List.mem_map_of_mem f ha2)
      have hnd2 : (rest.map f).Nodup := (List.nodup_cons.mp (by simpa using hnd)).2
      simp [dlookup, hne, ih hnd2 ha2]

/-! ## Loop lemmas -/

/-- On a run of well-formed lines with globally fresh custom_ids, the
`SimpleBatchManager.fetch_results` loop appends one entry per line, in order. -/
theorem SM.processLines_goods {M : Type} (cfg : SMCfg M) :
    ∀ (es : List SMEnvelope) (acc : List (String × SMValue M)),
      (dkeys acc ++ es.map SMEnvelope.custom_id).Nodup →
      SM.processLines cfg acc (es.map SMLine.good) =
        Except.ok (acc ++ es.map fun e => (e.custom_id, SM.lineValue cfg e)) := by
  intro es
  induction es with
  | nil => intro acc _; simp [SM.processLines]
  | cons e rest ih =>
    intro acc h
    have hkey : e.custom_id ∉ dkeys acc := by
      have hd := List.disjoint_of_nodup_append h
      intro hmem
      exact hd hmem (List.mem_cons_self _ _)
    have h2 : (dkeys (acc ++ [(e.custom_id, SM.lineValue cfg e)]) ++
        rest.map SMEnvelope.custom_id).Nodup := by
      simpa [dkeys, List.append_assoc] using h
    simp only [List.map_cons, SM.processLines]
    rw [dinsert_of_not_mem _ _ _ hkey, ih _ h2]
    simp

/-- Length of the ids produced by `_prepare_file` equals the payload size. -/
theorem SM.customIds_length (uuidHex : Nat → String) (p : SMPayload) (ids : List String)
    (h : SM.customIds uuidHex p = Except.ok ids) : ids.length = SM.payloadSize p := by
  cases p with
  | listP texts =>
    simp only [SM.customIds, Except.ok.injEq] at h
    simp [← h, SM.payloadSize]
  | dictP items =>
    simp only [SM.customIds, Except.ok.injEq] at h
    simp [← h, SM.payloadSize]
  | otherP => simp [SM.customIds] at h

/-- On a run of well-formed lines whose contents all name a known category,
the base-processor loop succeeds, and yields a non-empty dict whenever it saw
at least one line or started non-empty. -/
theorem OBP.parseLines_goods (cats : List String) :
    ∀ (es : List CatEntry) (acc : List (String × String)),
      (∀ e ∈ es, (cats.find? fun c => pyLower c = pyLower (pyStrip e.content)).isSome) →
      ∃ res, OBP.parseLines cats acc (es.map CatLine.good) = Except.ok res ∧
        ((es ≠ [] ∨ acc ≠ []) → res ≠ []) := by
  intro es
  induction es with
  | nil =>
    intro acc _
    refine ⟨acc, rfl, fun h => ?_⟩
    rcases h with h | h
    · exact absurd rfl h
    · exact h
  | cons e rest ih =>
    intro acc hp
    obtain ⟨c, hc⟩ := Option.isSome_iff_exists.mp (hp e (List.mem_cons_self _ _))
    obtain ⟨res, hres, hne⟩ :=
      ih (dinsert acc e.custom_id c) (fun x hx => hp x (List.mem_cons_of_mem _ hx))
    refine ⟨res, ?_, fun _ => hne (Or.inr (dinsert_ne_nil _ _ _))⟩
    simp [OBP.parseLines, parse_entry, hc, hres]

/-- Dispatch from index `i` over a block of non-raising handlers followed by a
raising one: every handler up to and including the raiser is invoked, the rest
are skipped, and the exception comes out. -/
theorem dispatchFrom_raise {R : Type} (results : R) (msg : String)
    (h : R → Except String Unit) (hraise : h results = Except.error msg) :
    ∀ (oks rest : List (R → Except String Unit)) (i : Nat),
      (∀ g ∈ oks, g results = Except.ok ()) →
      dispatchFrom results i (oks ++ h :: rest) =
        ((List.range' i (oks.length + 1)).map Event.handle, Except.error msg) := by
  intro oks
  induction oks with
  | nil =>
    intro rest i _
    simp [dispatchFrom, hraise, List.range']
  | cons g oks ih =>
    intro rest i hoks
    have hg := hoks g (List.mem_cons_self _ _)
    simp [dispatchFrom, hg, ih rest (i + 1) (fun x hx => hoks x (List.mem_cons_of_mem _ hx)),
      List.range']

/-! ## Claim theorems -/

/-- C1 counterexample: on the cited base-class path the claim fails at a
concrete input. A successfully completed batch with a well-formed one-entry
output artifact (unique custom_id a) and no error artifact makes
`OfflineBatchProcessor.fetch_results` raise NameError on the unbound
`err_txt` local at its final return statement — the call never returns the
one-entry results map the claim promises. -/
theorem C1_counterexample :
    (OBP.fetch_results obpRemoteDone ["FRUIT"] [] obpStore1 ("jn")).ret =
      Except.error (PyErr.nameError ("err_txt")) := by
  rfl

/-- C1 (amended, Custom-id fidelity for `SimpleBatchManager`): for an input
payload with unique ids, after the remote job completes with a well-formed
output artifact echoing exactly the submitted custom_ids (the caller-supplied
keys for a mapping payload, the generated uuid hex tokens for a list payload),
`SimpleBatchManager.fetch_results` returns exactly one entry per input item,
keyed by those ids, in submission order. The base-class `fetch_results`
accumulates the same per-custom_id map internally but cannot return it on the
plain success path (see the counterexample). -/
theorem C1_custom_id_fidelity {M : Type} (cfg : SMCfg M) (uuidHex : Nat → String)
    (payload : SMPayload) (ids : List String) (remote : SMRemote)
    (store : List (String × List SMJob)) (job_name : String) (job : SMJob)
    (info : BatchInfo) (f : String) (file : SMFile) (es : List SMEnvelope)
    (hids : SM.customIds uuidHex payload = Except.ok ids)
    (hnodup : ids.Nodup)
    (hload : loadState store job_name = [job])
    (hinfo : dlookup remote.batches job.id = some info)
    (hout : info.output_file_id = some f)
    (hfile : dlookup remote.files f = some file)
    (hlines : file.lines = es.map SMLine.good)
    (hcids : es.map SMEnvelope.custom_id = ids)
    (hh : cfg.handlers = []) :
    ∃ results, (SM.fetch_results remote cfg store job_name).ret = Except.ok results ∧
      dkeys results = ids ∧ results.length = SM.payloadSize payload := by
  have hproc := SM.processLines_goods cfg es [] (by simpa [dkeys, hcids] using hnodup)
  refine ⟨es.map fun e => (e.custom_id, SM.lineValue cfg e), ?_, ?_, ?_⟩
  · simp [SM.fetch_results, hload, hinfo, hout, hfile, hlines, hproc, hh, dispatch, dispatchFrom]
  · simp only [dkeys, List.map_map]
    exact hcids
  · have h1 : es.length = ids.length := by simpa using congrArg List.length hcids
    simp [h1, SM.customIds_length uuidHex payload ids hids]

/-- C1 witness: a one-item mapping payload with id a, evaluated concretely. -/
theorem C1_custom_id_fidelity_witness :
    ∃ results, (SM.fetch_results smRemoteDone smCfgId smStore1 ("jn")).ret = Except.ok results ∧
      dkeys results = ["a"] ∧ results.length = SM.payloadSize (SMPayload.dictP [("a", "apple")]) :=
  C1_custom_id_fidelity smCfgId (fun _ => "u") (SMPayload.dictP [("a", "apple")]) ["a"]
    smRemoteDone smStore1 ("jn") smJob1 smInfoDone ("f1") smFileOne [smEnvA]
    rfl (by decide) rfl rfl rfl rfl rfl rfl rfl

/-- C2 (Idempotent start): starting a job name that has no record submits once
and persists one record; a second `start` under the same name returns at once,
performs no upload and no batch creation, and leaves exactly the one record. -/
theorem C2_idempotent_start (uuidHex : Nat → String) (j1 j2 : SMJob) (p1 p2 : SMPayload)
    (store : List (String × List SMJob)) (job_name : String)
    (h0 : loadState store job_name = [])
    (hp1 : p1 ≠ SMPayload.otherP) :
    (SM.start uuidHex j2 p2 (SM.start uuidHex j1 p1 store job_name).store job_name).store =
      (SM.start uuidHex j1 p1 store job_name).store ∧
    (SM.start uuidHex j2 p2 (SM.start uuidHex j1 p1 store job_name).store job_name).events = [] ∧
    (SM.start uuidHex j2 p2 (SM.start uuidHex j1 p1 store job_name).store job_name).ret =
      Except.ok () ∧
    loadState (SM.start uuidHex j2 p2 (SM.start uuidHex j1 p1 store job_name).store job_name).store
      job_name = [j1] := by
  have hfirst : (SM.start uuidHex j1 p1 store job_name).store = saveState store job_name [j1] := by
    cases p1 with
    | listP texts => simp [SM.start, h0, SM.customIds]
    | dictP items => simp [SM.start, h0, SM.customIds]
    | otherP => exact absurd rfl hp1
  have hload1 : loadState (SM.start uuidHex j1 p1 store job_name).store job_name = [j1] := by
    rw [hfirst, loadState_saveState_self]
  have hsecond : ∀ s1 : List (String × List SMJob), loadState s1 job_name = [j1] →
      SM.start uuidHex j2 p2 s1 job_name = { store := s1, events := [], ret := Except.ok () } := by
    intro s1 hs1
    simp [SM.start, hs1]
  exact ⟨by rw [hsecond _ hload1], by rw [hsecond _ hload1], by rw [hsecond _ hload1],
    by rw [hsecond _ hload1]; exact hload1⟩

/-- C2 witness: a concrete double start from an empty state directory. -/
theorem C2_idempotent_start_witness :
    loadState (SM.start (fun _ => "u") smJob1 (SMPayload.listP ["t"])
      (SM.start (fun _ => "u") smJob1 (SMPayload.listP ["t"])
        ([] : List (String × List SMJob)) ("jn")).store ("jn")).store ("jn") = [smJob1] :=
  (C2_idempotent_start (fun _ => "u") smJob1 smJob1 (SMPayload.listP ["t"])
    (SMPayload.listP ["t"]) ([] : List (String × List SMJob)) ("jn") rfl (by decide)).2.2.2

/-- C10 (schema identity check): the constructor guard compares the
`custom_json_schema_obj_str` argument by identity against the class object
`dict`, so construction succeeds exactly when the literal class `dict` is
passed; the default `None` and every actual dict instance raise
ValueError with the message schema should be a dict. -/
theorem C10_schema_identity_check :
    (∀ x : PyObject, SM.initSchemaCheck x = Except.ok () ↔ x = PyObject.dictClass) ∧
    SM.initSchemaCheck PyObject.noneObj =
      Except.error (PyErr.valueError ("schema should be a dict")) ∧
    (∀ entries, SM.initSchemaCheck (PyObject.dictInstance entries) =
      Except.error (PyErr.valueError ("schema should be a dict"))) := by
  refine ⟨?_, rfl, fun entries => rfl⟩
  intro x
  constructor
  · intro hx
    by_contra hne
    simp [SM.initSchemaCheck, hne] at hx
  · intro hx
    subst hx
    rfl

/-- C10 witness: construction succeeds on the literal class object. -/
theorem C10_schema_identity_check_witness :
    SM.initSchemaCheck PyObject.dictClass = Except.ok () :=
  (C10_schema_identity_check.1 PyObject.dictClass).mpr rfl

/-- C3 counterexample: batch b1 is failed and exposes an error artifact;
`fetch_results` does not raise — it returns normally with an empty results map
and the downloaded error text — and it rewrites the state record (persisting
the discovered error artifact id) instead of leaving it untouched. -/
theorem C3_counterexample :
    (OBP.fetch_results obpRemoteFailedErr [] [] obpStore1 ("jn")).ret =
      Except.ok (OBPRet.full [] ("boom")) ∧
    (OBP.fetch_results obpRemoteFailedErr [] [] obpStore1 ("jn")).store =
      saveState obpStore1 ("jn")
        [{ id := "b1", output_file_id := none, error_file_id := some ("e1") }] := by
  exact ⟨rfl, rfl⟩

/-- C3 (amended): when the remote job is failed or cancelled AND exposes no
error artifact id, `fetch_results` raises RuntimeError carrying the
remote-supplied failure message, and the persisted record is left untouched;
when an error artifact id is present the call instead records it and returns
the downloaded error text without raising. -/
theorem C3_amended_failure_surfacing (remote : OBPRemote) (cats : List String)
    (handlers : List (List (String × String) → Except String Unit))
    (store : List (String × List OBPJob)) (job_name : String) (job : OBPJob) (info : BatchInfo)
    (hload : loadState store job_name = [job])
    (h1 : job.output_file_id = none) (h2 : job.error_file_id = none)
    (hinfo : dlookup remote.batches job.id = some info)
    (hstat : info.status = "failed" ∨ info.status = "cancelled")
    (hef : info.error_file_id = none) :
    (OBP.fetch_results remote cats handlers store job_name).ret =
      Except.error (PyErr.runtimeError
        ("Batch " ++ job.id ++ " failed: " ++ pyOr info.errors ("Unknown batch failure"))) ∧
    (OBP.fetch_results remote cats handlers store job_name).store = store := by
  have hstep : OBP.step remote cats
      { results := [], updated := false, errTxt := none, events := [], done := [] } job =
      Except.error ([Event.retrieve job.id], PyErr.runtimeError
        ("Batch " ++ job.id ++ " failed: " ++ pyOr info.errors ("Unknown batch failure"))) := by
    simp [OBP.step, h1, h2, hinfo, hstat, hef]
  constructor <;> simp [OBP.fetch_results, hload, OBP.runJobs, hstep]

/-- C3 witness: the failed batch with no error artifact, evaluated concretely. -/
theorem C3_amended_failure_surfacing_witness :
    (OBP.fetch_results obpRemoteFailedNoErr [] [] obpStore1 ("jn")).ret =
      Except.error (PyErr.runtimeError
        ("Batch " ++ "b1" ++ " failed: " ++ pyOr (some ("overloaded")) ("Unknown batch failure"))) ∧
    (OBP.fetch_results obpRemoteFailedNoErr [] [] obpStore1 ("jn")).store = obpStore1 :=
  C3_amended_failure_surfacing obpRemoteFailedNoErr [] [] obpStore1 ("jn") obpJobB1
    obpInfoFailedNoErr rfl rfl rfl rfl (Or.inl rfl) rfl

/-- C4 counterexample: an output artifact with one well-formed entry followed
by one malformed line makes `SimpleBatchManager.fetch_results` raise
json.JSONDecodeError instead of isolating the malformed entry. -/
theorem C4_counterexample :
    (SM.fetch_results smRemoteMixed smCfgId smStore1 ("jn")).ret =
      Except.error PyErr.jsonDecodeError := by
  rfl

/-- C4 (amended): isolation only holds one level down: when every line of the
artifact is well-formed JSON with status 200 and unique custom_ids, an entry
whose inner content fails to parse into the output model is recorded as an
error value under its custom_id while the other entries are returned parsed,
without raising; a line malformed at the JSON level aborts the fetch. -/
theorem C4_amended_partial_isolation {M : Type} (cfg : SMCfg M) (remote : SMRemote)
    (store : List (String × List SMJob)) (job_name : String) (job : SMJob)
    (info : BatchInfo) (f : String) (file : SMFile)
    (es1 : List SMEnvelope) (e0 : SMEnvelope) (es2 : List SMEnvelope)
    (hload : loadState store job_name = [job])
    (hinfo : dlookup remote.batches job.id = some info)
    (hout : info.output_file_id = some f)
    (hfile : dlookup remote.files f = some file)
    (hlines : file.lines = (es1 ++ e0 :: es2).map SMLine.good)
    (hnodup : ((es1 ++ e0 :: es2).map SMEnvelope.custom_id).Nodup)
    (h200 : ∀ e ∈ es1 ++ e0 :: es2, e.status_code = 200)
    (hbad : cfg.parseModel e0.content = ModelParse.jsonError)
    (hgood : ∀ e ∈ es1 ++ es2, ∃ m, cfg.parseModel e.content = ModelParse.ok m)
    (hh : cfg.handlers = []) :
    ∃ results, (SM.fetch_results remote cfg store job_name).ret = Except.ok results ∧
      results.length = (es1 ++ e0 :: es2).length ∧
      dlookup results e0.custom_id = some (SMValue.error ("Failed to parse content as JSON")) ∧
      ∀ e ∈ es1 ++ es2, ∃ m, dlookup results e.custom_id = some (SMValue.model m) := by
  have hproc := SM.processLines_goods cfg (es1 ++ e0 :: es2) [] (by simpa [dkeys] using hnodup)
  refine ⟨(es1 ++ e0 :: es2).map fun e => (e.custom_id, SM.lineValue cfg e), ?_, ?_, ?_, ?_⟩
  · have hproc2 := hproc
    simp only [List.map_append, List.map_cons, List.nil_append] at hproc2
    simp [SM.fetch_results, hload, hinfo, hout, hfile, hlines, hproc2, hh, dispatch, dispatchFrom]
  · simp
  · have hmem : e0 ∈ es1 ++ e0 :: es2 := by simp
    rw [dlookup_map_self SMEnvelope.custom_id (fun e => SM.lineValue cfg e) _ e0 hnodup hmem]
    simp [SM.lineValue, h200 e0 hmem, hbad]
  · intro e he
    have hmem : e ∈ es1 ++ e0 :: es2 := by
      rcases List.mem_append.mp he with h | h
      · exact List.mem_append.mpr (Or.inl h)
      · exact List.mem_append.mpr (Or.inr (List.mem_cons_of_mem _ h))
    obtain ⟨m, hm⟩ := hgood e he
    refine ⟨m, ?_⟩
    rw [dlookup_map_self SMEnvelope.custom_id (fun e => SM.lineValue cfg e) _ e hnodup hmem]
    simp [SM.lineValue, h200 e hmem, hm]

/-- C4 witness: one parsable entry plus one entry with unparsable content,
against the picky model, evaluated concretely. -/
theorem C4_amended_partial_isolation_witness :
    ∃ results, (SM.fetch_results smRemoteTwo smCfgPicky smStore1 ("jn")).ret =
        Except.ok results ∧
      results.length = ([smEnvA] ++ smEnvB :: []).length ∧
      dlookup results smEnvB.custom_id =
        some (SMValue.error ("Failed to parse content as JSON")) ∧
      ∀ e ∈ [smEnvA] ++ ([] : List SMEnvelope), ∃ m,
        dlookup results e.custom_id = some (SMValue.model m) :=
  C4_amended_partial_isolation smCfgPicky smRemoteTwo smStore1 ("jn") smJob1 smInfoDone
    ("f1") smFileTwo [smEnvA] smEnvB [] rfl rfl rfl rfl rfl (by decide) (by decide) rfl
    (by
      intro e he
      simp only [List.append_nil, List.mem_singleton] at he
      subst he
      exact ⟨"x", rfl⟩)
    rfl

/-- C5 (code bug, evaluated at the failing input): the first `fetch_results`
returns a non-empty results map and clears the state record, but the second
call for the same job name raises IndexError from
`self._load_state(job_name)[0]` instead of returning an empty map. -/
theorem C5_terminal_clearing_code_bug :
    (SM.fetch_results smRemoteDone smCfgId smStore1 ("jn")).ret =
      Except.ok [("a", SMValue.model ("x"))] ∧
    (SM.fetch_results smRemoteDone smCfgId smStore1 ("jn")).store = [] ∧
    (SM.fetch_results smRemoteDone smCfgId
      (SM.fetch_results smRemoteDone smCfgId smStore1 ("jn")).store ("jn")).ret =
      Except.error PyErr.indexError := by
  exact ⟨rfl, rfl, rfl⟩

/-- C6 counterexample: with the native status validating,
`SimpleBatchManager.check_status` returns the native string verbatim — a value
outside the fixed vocabulary — instead of mapping it to in_progress. -/
theorem C6_counterexample :
    SM.check_status smRemoteValidating smStore1 ("jn") =
      Except.ok ([("jn", [{ id := "b1", status := "validating" }])], "validating") ∧
    ("validating" ∉ (["submitted", "in_progress", "completed", "failed", "cancelled"] :
      List String)) := by
  exact ⟨rfl, by decide⟩

/-- C6 (amended): the vocabulary mapping holds for
`OfflineBatchProcessor.check_status` — failed and cancelled are returned
as-is, the remote's done status maps to completed, and every other native
status maps to in_progress — while `SimpleBatchManager.check_status` returns
the remote's native status string unchanged. -/
theorem C6_amended_status_mapping (remote : OBPRemote) (store : List (String × List OBPJob))
    (job_name : String) (job : OBPJob) (info : BatchInfo)
    (hload : loadState store job_name = [job])
    (hinfo : dlookup remote.batches job.id = some info) :
    ∃ r, OBP.check_status remote store job_name = Except.ok r ∧
      r ∈ (["submitted", "in_progress", "completed", "failed", "cancelled"] : List String) ∧
      ((info.status = "failed" ∨ info.status = "cancelled") → r = info.status) ∧
      (info.status = "completed" → r = "completed") ∧
      (¬ (info.status = "failed" ∨ info.status = "cancelled") →
        ¬ (info.status = "completed") → r = "in_progress") := by
  by_cases hfc : info.status = "failed" ∨ info.status = "cancelled"
  · refine ⟨info.status, ?_, ?_, fun _ => rfl, ?_, fun h _ => absurd hfc h⟩
    · simp [OBP.check_status, hload, OBP.checkLoop, hinfo, hfc]
    · rcases hfc with h | h <;> rw [h] <;> decide
    · intro hc
      rcases hfc with h | h <;> rw [hc] at h <;> exact absurd h (by decide)
  · by_cases hc : info.status = "completed"
    · refine ⟨"completed", ?_, by decide, fun h => absurd h hfc, fun _ => rfl,
        fun _ h => absurd hc h⟩
      simp [OBP.check_status, hload, OBP.checkLoop, hinfo, hfc, hc]
    · refine ⟨"in_progress", ?_, by decide, fun h => absurd h hfc, fun h => absurd h hc,
        fun _ _ => rfl⟩
      simp [OBP.check_status, hload, OBP.checkLoop, hinfo, hfc, hc]

/-- C6 witness: the base processor maps the native status validating to
in_progress, evaluated concretely. -/
theorem C6_amended_status_mapping_witness :
    ∃ r, OBP.check_status obpRemoteValidating obpStore1 ("jn") = Except.ok r ∧
      r ∈ (["submitted", "in_progress", "completed", "failed", "cancelled"] : List String) ∧
      ((({ id := "b1", status := "validating" } : BatchInfo).status = "failed" ∨
        ({ id := "b1", status := "validating" } : BatchInfo).status = "cancelled") →
        r = ({ id := "b1", status := "validating" } : BatchInfo).status) ∧
      (({ id := "b1", status := "validating" } : BatchInfo).status = "completed" →
        r = "completed") ∧
      (¬ (({ id := "b1", status := "validating" } : BatchInfo).status = "failed" ∨
        ({ id := "b1", status := "validating" } : BatchInfo).status = "cancelled") →
        ¬ (({ id := "b1", status := "validating" } : BatchInfo).status = "completed") →
        r = "in_progress") :=
  C6_amended_status_mapping obpRemoteValidating obpStore1 ("jn") obpJobB1
    ({ id := "b1", status := "validating" } : BatchInfo) rfl rfl

/-- C7 (code bug, evaluated at the failing input): with no state record,
`SimpleBatchManager.check_status` raises IndexError from
`self._load_state(job_name)[0]` — its own `if not job` guard is unreachable —
while `OfflineBatchProcessor.check_status` returns completed as the claim
states. -/
theorem C7_check_status_no_record_code_bug :
    SM.check_status smRemoteValidating ([] : List (String × List SMJob)) ("jn") =
      Except.error PyErr.indexError ∧
    OBP.check_status obpRemoteEmpty ([] : List (String × List OBPJob)) ("jn") =
      Except.ok ("completed") := by
  exact ⟨rfl, rfl⟩

/-- C8 counterexample: with two registered sinks of which the first raises,
`fetch_results` propagates the exception to its caller, the second sink never
runs (no handle 1 event), and the state record is not cleared. -/
theorem C8_counterexample :
    (SM.fetch_results smRemoteDone smCfgRaise smStore1 ("jn")).ret =
      Except.error (PyErr.handlerError ("boom")) ∧
    (SM.fetch_results smRemoteDone smCfgRaise smStore1 ("jn")).events =
      [Event.retrieve ("b1"), Event.download ("f1"), Event.handle 0] ∧
    (SM.fetch_results smRemoteDone smCfgRaise smStore1 ("jn")).store = smStore1 := by
  exact ⟨rfl, rfl, rfl⟩

/-- C8 (amended): dispatch invokes the sinks in order only up to the first one
that raises: every sink before it runs, the raising sink's exception
propagates (and from there out of `fetch_results`), and the remaining sinks
are skipped. -/
theorem C8_amended_dispatch_propagates {R : Type} (results : R)
    (oks : List (R → Except String Unit)) (h : R → Except String Unit)
    (rest : List (R → Except String Unit)) (msg : String)
    (hoks : ∀ g ∈ oks, g results = Except.ok ())
    (hraise : h results = Except.error msg) :
    dispatch (oks ++ h :: rest) results =
      ((List.range (oks.length + 1)).map Event.handle, Except.error msg) := by
  rw [dispatch, List.range_eq_range']
  exact dispatchFrom_raise results msg h hraise oks rest 0 hoks

/-- C8 witness: one succeeding sink followed by a raising one, evaluated
concretely. -/
theorem C8_amended_dispatch_propagates_witness :
    dispatch ([fun _ => Except.ok ()] ++ (fun _ => Except.error ("x")) :: []) (0 : Nat) =
      ((List.range 2).map Event.handle, Except.error ("x")) :=
  C8_amended_dispatch_propagates (0 : Nat) [fun _ => Except.ok ()]
    (fun _ => Except.error ("x")) [] ("x")
    (by
      intro g hg
      rw [List.mem_singleton] at hg
      subst hg
      rfl)
    rfl

/-- C9 counterexample: a fetch that discovers the output artifact id downloads
the artifact first and persists the id to the state store only afterwards —
the download event precedes the save event, so no save precedes a download. -/
theorem C9_counterexample :
    (OBP.fetch_results obpRemoteDone ["FRUIT"] [] obpStore1 ("jn")).events =
      [Event.retrieve ("b1"), Event.download ("f1"), Event.saveState ("jn"),
        Event.clearState ("jn")] ∧
    persistedBeforeDownload
      (OBP.fetch_results obpRemoteDone ["FRUIT"] [] obpStore1 ("jn")).events false = false := by
  exact ⟨rfl, rfl⟩

/-- C9 (amended): newly discovered artifact ids are written into the in-memory
job record at once, but persisted to the state store only after the artifact
downloads: in a discovery call on a completed batch the event order is
retrieve, download, save, clear. A crash during download therefore loses the
discovered id and forces re-discovery plus re-download — though never
resubmission, since the record with the batch id persisted at start remains. -/
theorem C9_amended_persist_after_download (remote : OBPRemote) (cats : List String)
    (store : List (String × List OBPJob)) (job_name : String) (job : OBPJob)
    (info : BatchInfo) (f : String) (file : OBPFile) (es : List CatEntry)
    (hload : loadState store job_name = [job])
    (h1 : job.output_file_id = none) (h2 : job.error_file_id = none)
    (hinfo : dlookup remote.batches job.id = some info)
    (hstat : info.status = "completed")
    (hout : info.output_file_id = some f)
    (hfile : dlookup remote.files f = some file)
    (hlines : file.lines = es.map CatLine.good)
    (hparse : ∀ e ∈ es, (cats.find? fun c => pyLower c = pyLower (pyStrip e.content)).isSome)
    (hne : es ≠ []) :
    (OBP.fetch_results remote cats [] store job_name).events =
      [Event.retrieve job.id, Event.download f, Event.saveState job_name,
        Event.clearState job_name] := by
  obtain ⟨res, hres, hresne⟩ := OBP.parseLines_goods cats es [] hparse
  have hresne2 : res ≠ [] := hresne (Or.inl hne)
  have hstep : OBP.step remote cats
      { results := [], updated := false, errTxt := none, events := [], done := [] } job =
      Except.ok { results := res, updated := true, errTxt := none,
                  events := [Event.retrieve job.id, Event.download f],
                  done := [{ job with output_file_id := some f, error_file_id := none }] } := by
    simp [OBP.step, h1, h2, hinfo, hstat, hout, OBP.download, hfile, hlines, hres,
      OBP.downloadErr]
  simp [OBP.fetch_results, hload, OBP.runJobs, hstep, hresne2, dispatch, dispatchFrom]

/-- C9 witness: the concrete discovery fetch on the completed batch. -/
theorem C9_amended_persist_after_download_witness :
    (OBP.fetch_results obpRemoteDone ["FRUIT"] [] obpStore1 ("jn")).events =
      [Event.retrieve obpJobB1.id, Event.download ("f1"), Event.saveState ("jn"),
        Event.clearState ("jn")] :=
  C9_amended_persist_after_download obpRemoteDone ["FRUIT"] obpStore1 ("jn") obpJobB1
    obpInfoDone ("f1") obpFileOut [{ custom_id := "a", content := "fruit" }]
    rfl rfl rfl rfl rfl rfl rfl rfl (by decide) (by decide)
